import Mathlib

set_option maxHeartbeats 1000000

/-!
Shallow embedding of the two scripts of this repository:
`src/places_retriever.py` (business-data enrichment pipeline) and
`src/merger.py` (CSV merge tool), together with theorems settling the
specification claims about them.

Modelling conventions:
  - CSV cells and JSON scalar values are modelled as `String`s (the Python
    code immediately converts looked-up scalars with `str(...)`).
  - Python dictionaries (insertion ordered, overwrite on reassignment) are
    modelled as association lists with `dset` / `dgetD` below.
  - The API key comes from `os.getenv`; both an unset variable (`None`) and
    an empty string are falsy in Python and take identical paths in the
    script, so the credential is modelled as a `String`, with `""` standing
    for "absent or empty".
  - The network is modelled as an oracle `net : String → ApiOutcome` giving
    the outcome of the single POST request made for a business name.
    `get_place_details` additionally returns a `Bool` recording whether the
    request was issued at all.
  - File-system effects are modelled by `Option` values: a missing input
    file is `none`; a run result records the exit status of the process and
    the output file it wrote (`none` when no output file was created).
-/

namespace Tangram

/-- The header of the column containing business names (`BUSINESS_NAME_COLUMN`
in `places_retriever.py`; also the hard-coded join key of `merger.py`). -/
def BUSINESS_NAME_COLUMN : String := "Business Name"

/-- One entry of a photo's `authorAttributions` list: a JSON object with
optional `displayName` and `uri` fields. -/
structure AuthorAttribution where
  displayName : Option String
  uri : Option String
deriving DecidableEq

/-- A photo object of a place: an optional `name` (the photo reference) and
the `authorAttributions` list.  An entry of that list may be a falsy JSON
value (e.g. an empty object), modelled as `none`: the code filters those out
with `if a`. -/
structure Photo where
  name : Option String
  authorAttributions : List (Option AuthorAttribution)
deriving DecidableEq

/-- A place object as consumed by the script: optional `userRatingCount` and
`rating` (scalars, modelled by their string rendering) and the `photos` list
(`details.get("photos", [])`: an absent key is the same as `[]`). -/
structure Place where
  userRatingCount : Option String
  rating : Option String
  photos : List Photo
deriving DecidableEq

/-- Outcome of the one HTTP request issued for a business name.
`requestError` covers a network failure or a non-success status
(`raise_for_status`), i.e. the `requests.exceptions.RequestException`
handler; `malformed` covers any other exception (e.g. a body that is not
JSON); `success js` is a parsed JSON body whose optional `places` key holds
the candidate list. -/
inductive ApiOutcome where
  | requestError : ApiOutcome
  | malformed : ApiOutcome
  | success : Option (List Place) → ApiOutcome

/-- Python truthiness of an optional string (`None` and `""` are falsy). -/
def strTruthy : Option String → Bool
  | none => false
  | some s => s ≠ ""

/-- Embedding of `get_place_details` (places_retriever.py lines 23-60).
Returns the first place of the response, or `none` on a missing key, an
empty name, a request error, a malformed body, an absent `places` key or an
empty candidate list.  The second component records whether the network
request was issued. -/
def get_place_details (API_KEY : String) (net : String → ApiOutcome)
    (business_name : String) : Option Place × Bool :=
  if API_KEY = "" then (none, false)
  else if business_name = "" then (none, false)
  else
    match net business_name with
    | .requestError => (none, true)
    | .malformed => (none, true)
    | .success none => (none, true)
    | .success (some []) => (none, true)
    | .success (some (p :: _)) => (some p, true)

/-- The default `max_width` argument of `construct_photo_url`. -/
def DEFAULT_MAX_WIDTH : Nat := 400

/-- Embedding of `construct_photo_url` (places_retriever.py lines 62-71):
pure string construction, empty when the credential or the photo name is
absent.  `Nat.repr` renders the f-string interpolation of `max_width`. -/
def construct_photo_url (API_KEY : String) (photo_name : String)
    (max_width : Nat) : String :=
  if API_KEY = "" then ""
  else if photo_name = "" then ""
  else "https://places.googleapis.com/v1/" ++ photo_name ++ "/media?key="
    ++ API_KEY ++ "&maxWidthPx=" ++ Nat.repr max_width

/-- A Python dict with string keys and values, as an insertion-ordered
association list with unique keys maintained by `dset`. -/
abbrev Dict := List (String × String)

/-- Replace an entry by `(k, v)` when its key is `k`. -/
def overwriteEntry (k v : String) (p : String × String) : String × String :=
  if p.1 == k then (k, v) else p

/-- Dict assignment `d[k] = v`: overwrite in place when the key is present,
append otherwise (Python dicts preserve insertion order). -/
def dset (d : Dict) (k v : String) : Dict :=
  if d.any (fun p => p.1 == k) then d.map (overwriteEntry k v)
  else d ++ [(k, v)]

/-- Dict lookup `d.get(k, v)`. -/
def dgetD (d : Dict) (k v : String) : String :=
  match d.find? (fun p => p.1 == k) with
  | some p => p.2
  | none => v

/-- The photos of a place that carry a truthy `name` (the loop body of
places_retriever.py lines 122-133 only acts under `if photo_name:`). -/
def namedPhotos (photos : List Photo) : List Photo :=
  photos.filter (fun ph => strTruthy ph.name)

/-- Attribution text of one photo (places_retriever.py line 131):
semicolon-joined `displayName: uri` over the truthy attribution entries. -/
def attributionText (ph : Photo) : String :=
  String.intercalate "; "
    ((ph.authorAttributions.filterMap id).map
      (fun a => a.displayName.getD "" ++ ": " ++ a.uri.getD ""))

/-- The ordered photo URLs collected by the loop: one per named photo,
built with the default max width. -/
def photoUrls (API_KEY : String) (photos : List Photo) : List String :=
  (namedPhotos photos).map
    (fun ph => construct_photo_url API_KEY (ph.name.getD "") DEFAULT_MAX_WIDTH)

/-- The per-photo attribution strings collected by the loop: a named photo
contributes its attribution text when its `authorAttributions` list is
truthy (non-empty), and nothing otherwise. -/
def photoAttributions (photos : List Photo) : List String :=
  (namedPhotos photos).filterMap
    (fun ph => if ph.authorAttributions.isEmpty then none
               else some (attributionText ph))

/-- The combined `image_attributions` field (places_retriever.py line 144):
non-empty per-photo attributions joined with a bar separator
(`" | ".join(filter(None, attributions))`). -/
def imageAttributions (photos : List Photo) : String :=
  String.intercalate " | " ((photoAttributions photos).filter (fun s => s ≠ ""))

/-- `current_photo_count` at the end of the loop: the number of photos with
a truthy name. -/
def countedPhotos (photos : List Photo) : Nat :=
  (namedPhotos photos).length

/-- The dynamic column name `f"photos_{idx}"`. -/
def photosKey (idx : Nat) : String := "photos_" ++ Nat.repr idx

/-- The `result_row` dict literal of places_retriever.py lines 104-109. -/
def baseRow (name : String) : Dict :=
  [(BUSINESS_NAME_COLUMN, name), ("review count", ""), ("rating", ""),
   ("image_attributions", "")]

/-- The loop of places_retriever.py lines 140-141: assign
`result_row[f"photos_{idx}"] = url` for each enumerated photo URL. -/
def addPhotoUrls (row : Dict) (urls : List String) : Dict :=
  urls.enum.foldl (fun r p => dset r (photosKey p.1) p.2) row

/-- The `result_row` built for one business name from its lookup result
(places_retriever.py lines 104-146).  An empty place dict is falsy in
Python, but a present-and-empty place produces exactly the same row as the
`none` branch (all updates are no-ops), so matching on the `Option` is
faithful. -/
def rowFor (API_KEY : String) (name : String) (details : Option Place) : Dict :=
  match details with
  | none => baseRow name
  | some place =>
    let row := dset (baseRow name) "review count" (place.userRatingCount.getD "")
    let row := dset row "rating" (place.rating.getD "")
    if place.photos.isEmpty then row
    else
      let row := addPhotoUrls row (photoUrls API_KEY place.photos)
      dset row "image_attributions" (imageAttributions place.photos)

/-- One step of the running `max_photos` update (places_retriever.py lines
119-137): the count of the current place replaces the maximum when the
place exists, has a truthy photo list and its counted photos exceed it. -/
def stepMaxPhotos (max_photos : Nat) (details : Option Place) : Nat :=
  match details with
  | none => max_photos
  | some place =>
    if place.photos.isEmpty then max_photos
    else if countedPhotos place.photos > max_photos then countedPhotos place.photos
    else max_photos

/-- An output CSV file: a header row and the data rows, each a list of
cells. -/
structure Csv where
  header : List String
  rows : List (List String)
deriving DecidableEq

/-- The observable result of running a script: the process exit status and
the output file it wrote (`none` when no output file was created). -/
structure RunResult where
  exitCode : Nat
  output : Option Csv
deriving DecidableEq

/-- The parsed input CSV as seen through `csv.DictReader`: the header list
and one dict per data row (every header column mapped to a cell). -/
structure InputCsv where
  headers : List String
  rows : List Dict

/-- The business names read from the input file (places_retriever.py lines
88-89): the name cell of each row, stripped. -/
def inputNames (file : InputCsv) : List String :=
  file.rows.map (fun r => (dgetD r BUSINESS_NAME_COLUMN "").trim)

/-- The dynamically widened output header (places_retriever.py lines
154-156). -/
def outputHeaders (max_photos : Nat) : List String :=
  [BUSINESS_NAME_COLUMN, "review count", "rating"]
    ++ (List.range max_photos).map photosKey ++ ["image_attributions"]

/-- What `csv.DictWriter(..., extrasaction="ignore")` writes for one row:
the row dict projected onto the header columns, absent keys rendered as the
default `restval` empty string, extra keys ignored. -/
def projectRow (headers : List String) (row : Dict) : List String :=
  headers.map (fun h => dgetD row h "")

/-- The final `max_photos` value of the processing loop. -/
def maxPhotos (API_KEY : String) (net : String → ApiOutcome)
    (names : List String) : Nat :=
  names.foldl (fun m n => stepMaxPhotos m (get_place_details API_KEY net n).1) 0

/-- Embedding of `main` of places_retriever.py (lines 74-167).  Every fatal
branch (`logging.critical` followed by `return`) lets the process finish
normally, so the exit status is 0 on every path; `output = none` models the
paths on which `output.csv` is never opened for writing.  A write failure
is caught and logged (lines 164-165) and is not modelled: the write itself
is assumed to succeed. -/
def placesMain (API_KEY : String) (input : Option InputCsv)
    (net : String → ApiOutcome) : RunResult :=
  if API_KEY = "" then { exitCode := 0, output := none }
  else
    match input with
    | none => { exitCode := 0, output := none }
    | some file =>
      if BUSINESS_NAME_COLUMN ∈ file.headers then
        let names := inputNames file
        let results := names.map
          (fun n => rowFor API_KEY n (get_place_details API_KEY net n).1)
        if results.isEmpty then { exitCode := 0, output := none }
        else
          let headers := outputHeaders (maxPhotos API_KEY net names)
          { exitCode := 0,
            output := some { header := headers,
                             rows := results.map (projectRow headers) } }
      else { exitCode := 0, output := none }

/-- The photo count an entity contributes to the running maximum: zero
without a lookup result, the number of named photos otherwise. -/
def entityPhotoCount (API_KEY : String) (net : String → ApiOutcome)
    (n : String) : Nat :=
  match (get_place_details API_KEY net n).1 with
  | none => 0
  | some p => countedPhotos p.photos

/-- Stated from the spec's words for comparison (claim C8): the attribution
text of one photo, formed from its attribution entries' author display name
plus source URI joined by semicolons. -/
def spec_photoAttributionText (ph : Photo) : String :=
  String.intercalate "; "
    ((ph.authorAttributions.filterMap id).map
      (fun a => a.displayName.getD "" ++ ": " ++ a.uri.getD ""))

/-- Stated from the spec's words (claim C8, as written): the attribution
texts of all of an entity's photos joined by the separator, skipping photos
whose attribution text is empty. -/
def spec_imageAttributions_allPhotos (photos : List Photo) : String :=
  String.intercalate " | "
    ((photos.map spec_photoAttributionText).filter (fun s => s ≠ ""))

/-- The amended form of claim C8: as above, but only over the photos that
carry a (truthy) reference name. -/
def spec_imageAttributions_namedPhotos (photos : List Photo) : String :=
  String.intercalate " | "
    (((photos.filter (fun ph => strTruthy ph.name)).map
        spec_photoAttributionText).filter (fun s => s ≠ ""))

/-- A concrete place used by witness runs: rating 4.5, 10 reviews, two
named photos, one attributed. -/
def examplePlace : Place :=
  { userRatingCount := some "10", rating := some "4.5",
    photos := [{ name := some "places/p/photos/1",
                 authorAttributions :=
                   [some { displayName := some "Alice",
                           uri := some "http://a" }] },
               { name := some "places/p/photos/2",
                 authorAttributions := [] }] }

/-- A concrete network oracle used by witness runs: entity "A" resolves to
`examplePlace`, every other entity suffers a request error. -/
def exampleNet : String → ApiOutcome := fun n =>
  if n == "A" then ApiOutcome.success (some [examplePlace])
  else ApiOutcome.requestError

/-- A concrete two-row input file used by witness runs. -/
def exampleFile : InputCsv :=
  { headers := ["Business Name"],
    rows := [[("Business Name", "A")], [("Business Name", "B")]] }

/-- The four merge modes accepted by merger.py's `--merge-type` flag. -/
inductive MergeType where
  | inner : MergeType
  | left : MergeType
  | right : MergeType
  | outer : MergeType
deriving DecidableEq

/-- A loaded pandas DataFrame: column names and rows of cells aligned with
them.  Cells are strings; a null produced by an unmatched join side is
rendered as the empty cell, matching what `to_csv` writes for NaN. -/
structure DataFrame where
  cols : List String
  rows : List (List String)
deriving DecidableEq

/-- The errors `merge_files` can raise: `pd.read_csv` failing on an input
path, or the explicit `ValueError` naming the file that lacks the
`'Business Name'` column (the spec's `MissingColumnError`). -/
inductive MergeError where
  | readError : String → MergeError
  | missingColumn : String → MergeError
deriving DecidableEq

/-- Position of the join key column in a frame. -/
def keyIdx (df : DataFrame) : Nat := df.cols.indexOf BUSINESS_NAME_COLUMN

/-- The join-key cell of a row. -/
def rowKey (df : DataFrame) (r : List String) : String := r.getD (keyIdx df) ""

/-- The merged header produced by `df1.merge(df2, on='Business Name')`:
df1's columns in order (colliding non-key names suffixed `_x`), then df2's
non-key columns (colliding names suffixed `_y`); the key appears once. -/
def mergedCols (d1 d2 : DataFrame) : List String :=
  d1.cols.map (fun c =>
      if c ≠ BUSINESS_NAME_COLUMN ∧ c ∈ d2.cols then c ++ "_x" else c)
    ++ (d2.cols.filter (fun c => c ≠ BUSINESS_NAME_COLUMN)).map (fun c =>
      if c ∈ d1.cols then c ++ "_y" else c)

/-- A right-side row with its key cell removed. -/
def dropKey (df : DataFrame) (r : List String) : List String :=
  r.eraseIdx (keyIdx df)

/-- The left-side cells of a merged row whose left side is unmatched: the
key cell carries the key, every other cell is null. -/
def nullsLeft (d1 : DataFrame) (k : String) : List String :=
  d1.cols.map (fun c => if c = BUSINESS_NAME_COLUMN then k else "")

/-- The right-side cells of a merged row whose right side is unmatched. -/
def nullsRight (d2 : DataFrame) : List String :=
  List.replicate ((d2.cols.filter (fun c => c ≠ BUSINESS_NAME_COLUMN)).length) ""

/-- The rows of a frame whose key cell equals `k`. -/
def matchesIn (df : DataFrame) (k : String) : List (List String) :=
  df.rows.filter (fun r => rowKey df r == k)

/-- Inner-join rows: the cross product of key-matching row pairs, in left
row order. -/
def innerRows (d1 d2 : DataFrame) : List (List String) :=
  d1.rows.flatMap (fun ra =>
    (matchesIn d2 (rowKey d1 ra)).map (fun rb => ra ++ dropKey d2 rb))

/-- Left-join rows: every left row, null-filled on the right when
unmatched. -/
def leftRows (d1 d2 : DataFrame) : List (List String) :=
  d1.rows.flatMap (fun ra =>
    let ms := matchesIn d2 (rowKey d1 ra)
    if ms.isEmpty then [ra ++ nullsRight d2]
    else ms.map (fun rb => ra ++ dropKey d2 rb))

/-- Right-join rows: every right row, null-filled on the left when
unmatched. -/
def rightRows (d1 d2 : DataFrame) : List (List String) :=
  d2.rows.flatMap (fun rb =>
    let ms := matchesIn d1 (rowKey d2 rb)
    if ms.isEmpty then [nullsLeft d1 (rowKey d2 rb) ++ dropKey d2 rb]
    else ms.map (fun ra => ra ++ dropKey d2 rb))

/-- Outer-join rows: the left-join rows followed by the right rows whose
key matches no left row, null-filled on the left. -/
def outerRows (d1 d2 : DataFrame) : List (List String) :=
  leftRows d1 d2
    ++ (d2.rows.filter (fun rb => (matchesIn d1 (rowKey d2 rb)).isEmpty)).map
      (fun rb => nullsLeft d1 (rowKey d2 rb) ++ dropKey d2 rb)

/-- Relational-join semantics of `df1.merge(df2, on='Business Name',
how=...)` followed by `to_csv`. -/
def pdMerge (d1 d2 : DataFrame) (how : MergeType) : Csv :=
  { header := mergedCols d1 d2,
    rows :=
      match how with
      | .inner => innerRows d1 d2
      | .left => leftRows d1 d2
      | .right => rightRows d1 d2
      | .outer => outerRows d1 d2 }

/-- Embedding of `merge_files` (merger.py lines 4-26): read both inputs
(a missing or unreadable file raises out of `pd.read_csv`), check the key
column in each, merge and write.  The output CSV is the returned value; on
any error nothing is written. -/
def merge_files (file1 : String) (df1 : Option DataFrame)
    (file2 : String) (df2 : Option DataFrame)
    (merge_type : MergeType) : Except MergeError Csv :=
  match df1 with
  | none => .error (.readError file1)
  | some d1 =>
    match df2 with
    | none => .error (.readError file2)
    | some d2 =>
      if BUSINESS_NAME_COLUMN ∈ d1.cols then
        if BUSINESS_NAME_COLUMN ∈ d2.cols then
          .ok (pdMerge d1 d2 merge_type)
        else .error (.missingColumn file2)
      else .error (.missingColumn file1)

/-- Embedding of merger.py's command-line entry point (lines 28-42): any
exception out of `merge_files` is caught, printed, and the process exits
with status 1; on success the merged CSV is written and the exit status is
0. -/
def mergerMain (file1 : String) (df1 : Option DataFrame)
    (file2 : String) (df2 : Option DataFrame)
    (merge_type : MergeType) : RunResult :=
  match merge_files file1 df1 file2 df2 merge_type with
  | .ok out => { exitCode := 0, output := some out }
  | .error _ => { exitCode := 1, output := none }

/-! Decimal-rendering facts: `Nat.repr` is injective, proved by a parse
round trip.  These support reasoning about the dynamic `photos_{i}` dict
keys. -/

/-- Value of a decimal digit character (inverse of `Nat.digitChar` on
digits below 10). -/
def digitVal (c : Char) : Nat :=
  if c = '0' then 0 else if c = '1' then 1 else if c = '2' then 2
  else if c = '3' then 3 else if c = '4' then 4 else if c = '5' then 5
  else if c = '6' then 6 else if c = '7' then 7 else if c = '8' then 8
  else if c = '9' then 9 else 0

/-- Numeric value of a decimal digit string. -/
def decValue (cs : List Char) : Nat :=
  cs.foldl (fun acc c => acc * 10 + digitVal c) 0

theorem digitVal_digitChar (d : Nat) (h : d < 10) :
    digitVal (Nat.digitChar d) = d := by
  interval_cases d <;> rfl

theorem toDigitsCore_acc (fuel : Nat) :
    ∀ (n : Nat) (ds : List Char),
      Nat.toDigitsCore 10 fuel n ds = Nat.toDigitsCore 10 fuel n [] ++ ds := by
  induction fuel with
  | zero => intro n ds; simp [Nat.toDigitsCore]
  | succ fuel ih =>
    intro n ds
    simp only [Nat.toDigitsCore]
    by_cases h : n / 10 = 0
    · simp [h]
    · simp only [h, if_false]
      rw [ih (n / 10) [Nat.digitChar (n % 10)],
        ih (n / 10) (Nat.digitChar (n % 10) :: ds), List.append_assoc]
      rfl

theorem decValue_append_last (cs : List Char) (c : Char) :
    decValue (cs ++ [c]) = decValue cs * 10 + digitVal c := by
  simp [decValue, List.foldl_append]

theorem decValue_toDigitsCore (fuel : Nat) :
    ∀ n : Nat, n < fuel → decValue (Nat.toDigitsCore 10 fuel n []) = n := by
  induction fuel with
  | zero => intro n h; omega
  | succ fuel ih =>
    intro n h
    simp only [Nat.toDigitsCore]
    by_cases h0 : n / 10 = 0
    · have hn : n < 10 := by omega
      simp only [h0, if_true]
      have : decValue [Nat.digitChar (n % 10)] = n % 10 := by
        simp [decValue, digitVal_digitChar (n % 10) (Nat.mod_lt n (by omega))]
      rw [this, Nat.mod_eq_of_lt hn]
    · simp only [h0, if_false]
      rw [toDigitsCore_acc fuel (n / 10) [Nat.digitChar (n % 10)],
        decValue_append_last,
        ih (n / 10) (by omega),
        digitVal_digitChar (n % 10) (Nat.mod_lt n (by omega))]
      omega

theorem decValue_repr (n : Nat) : decValue (Nat.repr n).data = n := by
  show decValue ((Nat.toDigits 10 n).asString).data = n
  have : ((Nat.toDigits 10 n).asString).data = Nat.toDigits 10 n := rfl
  rw [this]
  exact decValue_toDigitsCore (n + 1) n (Nat.lt_succ_self n)

theorem repr_injective {m n : Nat} (h : Nat.repr m = Nat.repr n) : m = n := by
  rw [← decValue_repr m, ← decValue_repr n, h]

theorem photosKey_data (j : Nat) :
    (photosKey j).data =
      'p' :: 'h' :: 'o' :: 't' :: 'o' :: 's' :: '_' :: (Nat.repr j).data := by
  show (("photos_" : String) ++ Nat.repr j).data = _
  rw [String.data_append]
  rfl

theorem photosKey_injective {i j : Nat} (h : photosKey i = photosKey j) :
    i = j := by
  have hd := congrArg String.data h
  rw [photosKey_data, photosKey_data] at hd
  simp only [List.cons.injEq, true_and] at hd
  have : decValue (Nat.repr i).data = decValue (Nat.repr j).data := by rw [hd]
  rwa [decValue_repr, decValue_repr] at this

theorem photosKey_ne_of_head (j : Nat) (s : String)
    (h : s.data.head? ≠ some 'p') : photosKey j ≠ s := by
  intro he
  apply h
  rw [← he, photosKey_data]
  rfl

/-! Lemmas on the dict operations. -/

theorem overwriteEntry_eq (k v : String) (p : String × String)
    (h : p.1 = k) : overwriteEntry k v p = (k, v) := by
  simp [overwriteEntry, h]

theorem overwriteEntry_ne (k v : String) (p : String × String)
    (h : p.1 ≠ k) : overwriteEntry k v p = p := by
  simp [overwriteEntry, beq_eq_false_iff_ne.mpr h]

theorem find?_map_overwrite (d : Dict) (k v : String) :
    (d.map (overwriteEntry k v)).find? (fun p => p.1 == k) =
      if d.any (fun p => p.1 == k) then some (k, v) else none := by
  induction d with
  | nil => rfl
  | cons p tl ih =>
    by_cases hpk : p.1 = k
    · rw [List.map_cons, overwriteEntry_eq k v p hpk]
      simp [List.find?_cons, List.any_cons, hpk]
    · rw [List.map_cons, overwriteEntry_ne k v p hpk]
      have hb : (p.1 == k) = false := beq_eq_false_iff_ne.mpr hpk
      simp [List.find?_cons, List.any_cons, hb, ih]
      rw [hb, Bool.false_or]

theorem find?_append_single (d : Dict) (k v : String)
    (h : d.any (fun p => p.1 == k) = false) :
    (d ++ [(k, v)]).find? (fun p => p.1 == k) = some (k, v) := by
  induction d with
  | nil => simp [List.find?]
  | cons p tl ih =>
    simp only [List.any_cons, Bool.or_eq_false_iff] at h
    simp [List.find?, h.1, ih h.2]

theorem dgetD_dset_self (d : Dict) (k v w : String) :
    dgetD (dset d k v) k w = v := by
  unfold dset dgetD
  by_cases h : d.any (fun p => p.1 == k)
  · rw [if_pos h, find?_map_overwrite, if_pos h]
  · have h' : d.any (fun p => p.1 == k) = false := by
      simp only [Bool.not_eq_true] at h
      exact h
    rw [if_neg h, find?_append_single d k v h']

theorem find?_map_overwrite_ne (d : Dict) (k v k2 : String) (h : k2 ≠ k) :
    (d.map (overwriteEntry k v)).find? (fun p => p.1 == k2) =
      d.find? (fun p => p.1 == k2) := by
  induction d with
  | nil => rfl
  | cons p tl ih =>
    rw [List.map_cons]
    by_cases hpk : p.1 = k
    · have hk2 : (k == k2) = false := beq_eq_false_iff_ne.mpr (Ne.symm h)
      have hp2 : (p.1 == k2) = false := by rw [hpk]; exact hk2
      rw [overwriteEntry_eq k v p hpk]
      simp [List.find?_cons, hk2, hp2, ih]
    · rw [overwriteEntry_ne k v p hpk]
      by_cases hp2 : p.1 = k2
      · simp [List.find?_cons, hp2]
      · have hb2 : (p.1 == k2) = false := beq_eq_false_iff_ne.mpr hp2
        simp [List.find?_cons, hb2, ih]

theorem find?_append_single_ne (d : Dict) (k v k2 : String) (h : k2 ≠ k) :
    (d ++ [(k, v)]).find? (fun p => p.1 == k2) =
      d.find? (fun p => p.1 == k2) := by
  induction d with
  | nil =>
    simp [List.find?, beq_eq_false_iff_ne.mpr (Ne.symm h)]
  | cons p tl ih =>
    by_cases hp2 : p.1 = k2
    · simp [List.find?, hp2]
    · have hb2 : (p.1 == k2) = false := beq_eq_false_iff_ne.mpr hp2
      simp [List.find?, hb2, ih]

theorem dgetD_dset_ne (d : Dict) (k v k2 w : String) (h : k2 ≠ k) :
    dgetD (dset d k v) k2 w = dgetD d k2 w := by
  unfold dset dgetD
  by_cases hany : d.any (fun p => p.1 == k)
  · rw [if_pos hany, find?_map_overwrite_ne d k v k2 h]
  · rw [if_neg hany, find?_append_single_ne d k v k2 h]

theorem photosKey_ne_bn (j : Nat) : photosKey j ≠ BUSINESS_NAME_COLUMN :=
  photosKey_ne_of_head j _ (by decide)

theorem photosKey_ne_rc (j : Nat) : photosKey j ≠ "review count" :=
  photosKey_ne_of_head j _ (by decide)

theorem photosKey_ne_rating (j : Nat) : photosKey j ≠ "rating" :=
  photosKey_ne_of_head j _ (by decide)

theorem photosKey_ne_img (j : Nat) : photosKey j ≠ "image_attributions" :=
  photosKey_ne_of_head j _ (by decide)

theorem dgetD_nil (k w : String) : dgetD [] k w = w := rfl

theorem dgetD_cons (k1 v1 : String) (d : Dict) (k w : String) :
    dgetD ((k1, v1) :: d) k w = if k1 == k then v1 else dgetD d k w := by
  unfold dgetD
  cases h : (k1 == k) with
  | true => simp [List.find?_cons, h]
  | false => simp [List.find?_cons, h]

theorem dgetD_baseRow_name (n w : String) :
    dgetD (baseRow n) BUSINESS_NAME_COLUMN w = n := by
  simp [baseRow, dgetD_cons]

theorem dgetD_baseRow_rc (n w : String) :
    dgetD (baseRow n) "review count" w = "" := by
  have h1 : (BUSINESS_NAME_COLUMN == "review count") = false := by decide
  simp [baseRow, dgetD_cons, h1]

theorem dgetD_baseRow_rating (n w : String) :
    dgetD (baseRow n) "rating" w = "" := by
  have h1 : (BUSINESS_NAME_COLUMN == "rating") = false := by decide
  have h2 : (("review count" : String) == "rating") = false := by decide
  simp [baseRow, dgetD_cons, h1, h2]

theorem dgetD_baseRow_img (n w : String) :
    dgetD (baseRow n) "image_attributions" w = "" := by
  have h1 : (BUSINESS_NAME_COLUMN == "image_attributions") = false := by decide
  have h2 : (("review count" : String) == "image_attributions") = false := by decide
  have h3 : (("rating" : String) == "image_attributions") = false := by decide
  simp [baseRow, dgetD_cons, h1, h2, h3]

theorem dgetD_baseRow_photosKey (n : String) (j : Nat) (w : String) :
    dgetD (baseRow n) (photosKey j) w = w := by
  have h1 : (BUSINESS_NAME_COLUMN == photosKey j) = false :=
    beq_eq_false_iff_ne.mpr (Ne.symm (photosKey_ne_bn j))
  have h2 : (("review count" : String) == photosKey j) = false :=
    beq_eq_false_iff_ne.mpr (Ne.symm (photosKey_ne_rc j))
  have h3 : (("rating" : String) == photosKey j) = false :=
    beq_eq_false_iff_ne.mpr (Ne.symm (photosKey_ne_rating j))
  have h4 : (("image_attributions" : String) == photosKey j) = false :=
    beq_eq_false_iff_ne.mpr (Ne.symm (photosKey_ne_img j))
  simp [baseRow, dgetD_cons, h1, h2, h3, h4, dgetD_nil]

theorem dgetD_photosFold (urls : List String) :
    ∀ (i : Nat) (r : Dict) (j : Nat) (w : String),
      dgetD ((urls.enumFrom i).foldl (fun d p => dset d (photosKey p.1) p.2) r)
          (photosKey j) w =
        if i ≤ j ∧ j < i + urls.length then urls.getD (j - i) ""
        else dgetD r (photosKey j) w := by
  induction urls with
  | nil =>
    intro i r j w
    rw [List.enumFrom, List.foldl_nil,
      if_neg (by simp only [List.length_nil]; omega)]
  | cons u us ih =>
    intro i r j w
    rw [List.enumFrom, List.foldl_cons, ih (i + 1) (dset r (photosKey i) u) j w]
    by_cases hj : j = i
    · subst hj
      rw [if_neg (by omega), if_pos (by simp only [List.length_cons]; omega),
        dgetD_dset_self]
      simp
    · by_cases hj2 : i + 1 ≤ j ∧ j < i + 1 + us.length
      · rw [if_pos hj2, if_pos (by simp only [List.length_cons]; omega)]
        have hji : j - i = (j - (i + 1)) + 1 := by omega
        rw [hji, List.getD_cons_succ]
      · rw [if_neg hj2, if_neg (by simp only [List.length_cons]; omega),
          dgetD_dset_ne _ _ _ _ _ (fun he => hj (photosKey_injective he))]

theorem dgetD_addPhotoUrls (r : Dict) (urls : List String) (j : Nat)
    (w : String) :
    dgetD (addPhotoUrls r urls) (photosKey j) w =
      if j < urls.length then urls.getD j "" else dgetD r (photosKey j) w := by
  unfold addPhotoUrls
  rw [List.enum, dgetD_photosFold urls 0 r j w]
  by_cases h : j < urls.length
  · rw [if_pos (by omega), if_pos h]
    simp
  · rw [if_neg (by omega), if_neg h]

theorem dgetD_photosFold_ne (urls : List String) :
    ∀ (i : Nat) (r : Dict) (k w : String), (∀ t, photosKey t ≠ k) →
      dgetD ((urls.enumFrom i).foldl (fun d p => dset d (photosKey p.1) p.2) r)
        k w = dgetD r k w := by
  induction urls with
  | nil => intro i r k w _; rw [List.enumFrom, List.foldl_nil]
  | cons u us ih =>
    intro i r k w h
    rw [List.enumFrom, List.foldl_cons, ih (i + 1) _ k w h,
      dgetD_dset_ne _ _ _ _ _ (Ne.symm (h i))]

theorem dgetD_addPhotoUrls_ne (r : Dict) (urls : List String) (k w : String)
    (h : ∀ t, photosKey t ≠ k) :
    dgetD (addPhotoUrls r urls) k w = dgetD r k w := by
  unfold addPhotoUrls
  rw [List.enum, dgetD_photosFold_ne urls 0 r k w h]

theorem photoUrls_length (a : String) (photos : List Photo) :
    (photoUrls a photos).length = countedPhotos photos := by
  simp [photoUrls, countedPhotos]

theorem rowFor_photos_cell (a n : String) (p : Place) (j : Nat) :
    dgetD (rowFor a n (some p)) (photosKey j) "" =
      (photoUrls a p.photos).getD j "" := by
  simp only [rowFor]
  by_cases hph : p.photos.isEmpty
  · rw [if_pos hph]
    rw [dgetD_dset_ne _ _ _ _ _ (photosKey_ne_rating j),
      dgetD_dset_ne _ _ _ _ _ (photosKey_ne_rc j),
      dgetD_baseRow_photosKey]
    have hnil : p.photos = [] := by simpa using hph
    rw [hnil]
    rfl
  · rw [if_neg hph, dgetD_dset_ne _ _ _ _ _ (photosKey_ne_img j),
      dgetD_addPhotoUrls]
    by_cases hlt : j < (photoUrls a p.photos).length
    · rw [if_pos hlt]
    · rw [if_neg hlt,
        dgetD_dset_ne _ _ _ _ _ (photosKey_ne_rating j),
        dgetD_dset_ne _ _ _ _ _ (photosKey_ne_rc j),
        dgetD_baseRow_photosKey,
        List.getD_eq_getElem?_getD, List.getElem?_eq_none (by omega)]
      rfl

theorem rowFor_img_cell (a n : String) (p : Place) :
    dgetD (rowFor a n (some p)) "image_attributions" "" =
      imageAttributions p.photos := by
  simp only [rowFor]
  by_cases hph : p.photos.isEmpty
  · rw [if_pos hph]
    have h1 : ("image_attributions" : String) ≠ "rating" := by decide
    have h2 : ("image_attributions" : String) ≠ "review count" := by decide
    rw [dgetD_dset_ne _ _ _ _ _ h1, dgetD_dset_ne _ _ _ _ _ h2,
      dgetD_baseRow_img]
    have hnil : p.photos = [] := by simpa using hph
    rw [hnil]
    rfl
  · rw [if_neg hph, dgetD_dset_self]

theorem projectRow_baseRow (m : Nat) (nm : String) :
    projectRow (outputHeaders m) (baseRow nm) =
      nm :: "" :: "" :: (List.replicate m "" ++ [""]) := by
  unfold projectRow outputHeaders
  rw [List.map_append, List.map_append, List.map_map]
  have hmid : (List.range m).map
      ((fun h => dgetD (baseRow nm) h "") ∘ photosKey) = List.replicate m "" := by
    have hcg : ∀ x ∈ List.range m,
        ((fun h => dgetD (baseRow nm) h "") ∘ photosKey) x = (fun _ => "") x := by
      intro x _
      exact dgetD_baseRow_photosKey nm x ""
    rw [List.map_congr_left hcg]
    simp
  rw [hmid]
  simp [dgetD_baseRow_name, dgetD_baseRow_rc, dgetD_baseRow_rating,
    dgetD_baseRow_img]

theorem replicate_split (m : Nat) :
    List.replicate (m + 3) ("" : String) =
      "" :: "" :: (List.replicate m "" ++ [""]) := by
  rw [show m + 3 = (m + 1) + 1 + 1 from rfl, List.replicate_succ,
    List.replicate_succ, List.replicate_succ']

theorem projectRow_rowFor_none (m : Nat) (a nm : String) :
    projectRow (outputHeaders m) (rowFor a nm none) =
      nm :: List.replicate (m + 3) "" := by
  show projectRow (outputHeaders m) (baseRow nm) = _
  rw [projectRow_baseRow, replicate_split]

theorem stepMaxPhotos_eq (m : Nat) (d : Option Place) :
    stepMaxPhotos m d =
      max m (match d with | none => 0 | some p => countedPhotos p.photos) := by
  cases d with
  | none => simp [stepMaxPhotos]
  | some p =>
    simp only [stepMaxPhotos]
    by_cases h : p.photos.isEmpty
    · rw [if_pos h]
      have hnil : p.photos = [] := by simpa using h
      simp [hnil, countedPhotos, namedPhotos]
    · rw [if_neg h]
      split_ifs with h2 <;> omega

theorem maxPhotos_foldl (API_KEY : String) (net : String → ApiOutcome) :
    ∀ (names : List String) (m : Nat),
      names.foldl
          (fun acc n => stepMaxPhotos acc (get_place_details API_KEY net n).1)
          m =
        max m ((names.map (entityPhotoCount API_KEY net)).foldr max 0) := by
  intro names
  induction names with
  | nil => intro m; simp
  | cons n ns ih =>
    intro m
    rw [List.foldl_cons, ih, stepMaxPhotos_eq, List.map_cons, List.foldr_cons]
    show max (max m (entityPhotoCount API_KEY net n)) _ = _
    rw [Nat.max_assoc]

theorem maxPhotos_eq (a : String) (net : String → ApiOutcome)
    (names : List String) :
    maxPhotos a net names = (names.map (entityPhotoCount a net)).foldr max 0 := by
  unfold maxPhotos
  rw [maxPhotos_foldl]
  omega

theorem inputNames_ne_nil (file : InputCsv) (hne : file.rows ≠ []) :
    inputNames file ≠ [] := by
  unfold inputNames
  simpa using hne

theorem placesMain_eq (a : String) (file : InputCsv) (net : String → ApiOutcome)
    (ha : a ≠ "") (hcol : BUSINESS_NAME_COLUMN ∈ file.headers)
    (hne : file.rows ≠ []) :
    placesMain a (some file) net =
      { exitCode := 0,
        output := some
          { header := outputHeaders (maxPhotos a net (inputNames file)),
            rows := (inputNames file).map (fun n =>
              projectRow (outputHeaders (maxPhotos a net (inputNames file)))
                (rowFor a n (get_place_details a net n).1)) } } := by
  have hres : ((inputNames file).map
      (fun n => rowFor a n (get_place_details a net n).1)).isEmpty = false := by
    simp [List.isEmpty_iff, inputNames_ne_nil file hne]
  simp only [placesMain]
  rw [if_neg ha, if_pos hcol, hres]
  simp only [Bool.false_eq_true, if_false, RunResult.mk.injEq, Option.some.injEq,
    Csv.mk.injEq, true_and, List.map_map]
  rfl

theorem get_place_details_failure (a n : String) (net : String → ApiOutcome)
    (hfail : net n = .requestError ∨ net n = .malformed) :
    (get_place_details a net n).1 = none := by
  unfold get_place_details
  by_cases ha : a = ""
  · rw [if_pos ha]
  · rw [if_neg ha]
    by_cases hn : n = ""
    · rw [if_pos hn]
    · rw [if_neg hn]
      rcases hfail with h | h <;> rw [h]

theorem get_place_details_empty_name (a : String) (net : String → ApiOutcome) :
    get_place_details a net "" = (none, false) := by
  unfold get_place_details
  by_cases ha : a = ""
  · rw [if_pos ha]
  · rw [if_neg ha, if_pos rfl]

theorem attributionText_empty (ph : Photo) (h : ph.authorAttributions = []) :
    attributionText ph = "" := by
  rw [attributionText, h]
  rfl

theorem filtered_attributions (l : List Photo) :
    (l.filterMap (fun ph => if ph.authorAttributions.isEmpty then none
        else some (attributionText ph))).filter (fun s => s ≠ "") =
      (l.map attributionText).filter (fun s => s ≠ "") := by
  induction l with
  | nil => rfl
  | cons ph tl ih =>
    rw [List.filterMap_cons, List.map_cons]
    by_cases hE : ph.authorAttributions.isEmpty
    · rw [if_pos hE]
      have hempty : attributionText ph = "" :=
        attributionText_empty ph (by simpa using hE)
      rw [List.filter_cons, hempty, if_neg (by decide)]
      exact ih
    · rw [if_neg hE, List.filter_cons, List.filter_cons, ih]

theorem imageAttributions_eq_spec (photos : List Photo) :
    imageAttributions photos = spec_imageAttributions_namedPhotos photos := by
  unfold imageAttributions spec_imageAttributions_namedPhotos photoAttributions
    namedPhotos
  rw [filtered_attributions]
  rfl

/-- Claim C7: construct_photo_url returns the empty string when the
credential or the photo reference is absent, and otherwise the URL
combining the base endpoint, the photo reference, the credential and the
max-width parameter, whose default is 400.  It is a pure Lean function:
string construction only. -/
theorem construct_photo_url_contract (k n : String) (w : Nat) :
    ((k = "" ∨ n = "") → construct_photo_url k n w = "") ∧
    (k ≠ "" → n ≠ "" → construct_photo_url k n w =
      "https://places.googleapis.com/v1/" ++ n ++ "/media?key=" ++ k
        ++ "&maxWidthPx=" ++ Nat.repr w) ∧
    DEFAULT_MAX_WIDTH = 400 := by
  refine ⟨?_, ?_, rfl⟩
  · rintro (h | h)
    · rw [construct_photo_url, if_pos h]
    · rw [construct_photo_url]
      by_cases hk : k = ""
      · rw [if_pos hk]
      · rw [if_neg hk, if_pos h]
  · intro hk hn
    rw [construct_photo_url, if_neg hk, if_neg hn]

/-- Witness for C7 at a concrete credential, reference and width. -/
theorem construct_photo_url_contract_witness :
    construct_photo_url "KEY" "places/p1/photos/r1" 400 =
      "https://places.googleapis.com/v1/" ++ "places/p1/photos/r1"
        ++ "/media?key=" ++ "KEY" ++ "&maxWidthPx=" ++ Nat.repr 400 :=
  (construct_photo_url_contract "KEY" "places/p1/photos/r1" 400).2.1
    (by decide) (by decide)

/-- Claim C9: an input file with a header but zero data rows makes the
enrichment pipeline terminate (exit 0) without writing any output file at
all. -/
theorem empty_input_writes_no_output (a : String) (net : String → ApiOutcome)
    (file : InputCsv) (hrows : file.rows = []) :
    placesMain a (some file) net = { exitCode := 0, output := none } := by
  simp only [placesMain]
  by_cases ha : a = ""
  · rw [if_pos ha]
  · rw [if_neg ha]
    by_cases hcol : BUSINESS_NAME_COLUMN ∈ file.headers
    · have hres : ((inputNames file).map
          (fun n => rowFor a n (get_place_details a net n).1)).isEmpty = true := by
        simp [inputNames, hrows]
      rw [if_pos hcol, hres]
      simp
    · rw [if_neg hcol]

/-- Witness for C9: a header-only input file. -/
theorem empty_input_writes_no_output_witness :
    placesMain "KEY" (some { headers := ["Business Name"], rows := [] })
        (fun _ => ApiOutcome.requestError) =
      { exitCode := 0, output := none } :=
  empty_input_writes_no_output "KEY" (fun _ => ApiOutcome.requestError)
    { headers := ["Business Name"], rows := [] } rfl

/-- Claim C3: an empty entity name triggers no network request
(`get_place_details` returns with the request flag false) and its result
row, projected onto any output header, is entirely empty: the name field
holds the empty name and every other field is the empty string. -/
theorem empty_name_no_request_blank_row (a : String) (net : String → ApiOutcome)
    (m : Nat) :
    get_place_details a net "" = (none, false) ∧
    projectRow (outputHeaders m) (rowFor a "" (get_place_details a net "").1) =
      List.replicate (m + 4) "" := by
  refine ⟨get_place_details_empty_name a net, ?_⟩
  show projectRow (outputHeaders m) (rowFor a "" (get_place_details a net "").1)
      = _
  rw [get_place_details_empty_name]
  show projectRow (outputHeaders m) (rowFor a "" none) = _
  rw [projectRow_rowFor_none]
  rfl

/-- Claim C2: when the key column is absent from at least one input, merge
fails with the missing-column error naming an offending dataset and the
process exits 1 with no output written. -/
theorem merge_missing_key_column (f1 f2 : String) (d1 d2 : DataFrame)
    (mt : MergeType)
    (h : BUSINESS_NAME_COLUMN ∉ d1.cols ∨ BUSINESS_NAME_COLUMN ∉ d2.cols) :
    (∃ f, merge_files f1 (some d1) f2 (some d2) mt =
        .error (.missingColumn f) ∧
      ((f = f1 ∧ BUSINESS_NAME_COLUMN ∉ d1.cols) ∨
       (f = f2 ∧ BUSINESS_NAME_COLUMN ∉ d2.cols))) ∧
    mergerMain f1 (some d1) f2 (some d2) mt =
      { exitCode := 1, output := none } := by
  by_cases h1 : BUSINESS_NAME_COLUMN ∈ d1.cols
  · have h2 : BUSINESS_NAME_COLUMN ∉ d2.cols := by tauto
    have hm : merge_files f1 (some d1) f2 (some d2) mt =
        .error (.missingColumn f2) := by
      simp only [merge_files]
      rw [if_pos h1, if_neg h2]
    refine ⟨⟨f2, hm, Or.inr ⟨rfl, h2⟩⟩, ?_⟩
    simp only [mergerMain, hm]
  · have hm : merge_files f1 (some d1) f2 (some d2) mt =
        .error (.missingColumn f1) := by
      simp only [merge_files]
      rw [if_neg h1]
    refine ⟨⟨f1, hm, Or.inl ⟨rfl, h1⟩⟩, ?_⟩
    simp only [mergerMain, hm]

/-- Witness for C2: the first input lacks the key column. -/
theorem merge_missing_key_column_witness :
    (∃ f, merge_files "a.csv" (some { cols := ["id"], rows := [] })
        "b.csv" (some { cols := ["Business Name"], rows := [] })
        MergeType.inner = .error (.missingColumn f) ∧
      ((f = "a.csv" ∧ BUSINESS_NAME_COLUMN ∉
          ({ cols := ["id"], rows := [] } : DataFrame).cols) ∨
       (f = "b.csv" ∧ BUSINESS_NAME_COLUMN ∉
          ({ cols := ["Business Name"], rows := [] } : DataFrame).cols))) ∧
    mergerMain "a.csv" (some { cols := ["id"], rows := [] })
        "b.csv" (some { cols := ["Business Name"], rows := [] })
        MergeType.inner = { exitCode := 1, output := none } :=
  merge_missing_key_column "a.csv" "b.csv" { cols := ["id"], rows := [] }
    { cols := ["Business Name"], rows := [] } MergeType.inner
    (Or.inl (by decide))

/-- Counterexample to claim C6 as stated: the merge key is hard-coded to
the business-name column, so merging the two `id`-keyed datasets of the
claim raises the missing-column error for the first file instead of
producing the claimed three-column output. -/
theorem merge_on_id_counterexample :
    merge_files "file1.csv" (some { cols := ["id", "x"], rows := [["1", "a"]] })
        "file2.csv"
        (some { cols := ["id", "y"], rows := [["1", "b"], ["2", "c"]] })
        MergeType.outer =
      .error (.missingColumn "file1.csv") := rfl

/-- Claim C6 as amended: the same two datasets keyed by the hard-coded
"Business Name" column merge in outer mode to a three-column output with
exactly the rows 1,a,b and 2,(empty),c. -/
theorem merge_outer_business_name_scenario :
    merge_files "file1.csv"
        (some { cols := ["Business Name", "x"], rows := [["1", "a"]] })
        "file2.csv"
        (some { cols := ["Business Name", "y"],
                rows := [["1", "b"], ["2", "c"]] })
        MergeType.outer =
      .ok { header := ["Business Name", "x", "y"],
            rows := [["1", "a", "b"], ["2", "", "c"]] } ∧
    (["Business Name", "x", "y"] : List String).length = 3 := ⟨rfl, rfl⟩

/-- Counterexample to claim C8 as stated: a photo lacking a reference name
but carrying an attribution entry is skipped entirely by the code (its
attribution never enters the combined string), while the claim as written
ranges over all of the entity's photos. -/
theorem image_attributions_unnamed_counterexample :
    dgetD (rowFor "KEY" "B"
        (some { userRatingCount := none, rating := none,
                photos := [{ name := none,
                             authorAttributions :=
                               [some { displayName := some "Alice",
                                       uri := some "http://a" }] }] }))
      "image_attributions" "" = "" ∧
    spec_imageAttributions_allPhotos
        [{ name := none,
           authorAttributions := [some { displayName := some "Alice",
                                         uri := some "http://a" }] }] =
      "Alice: http://a" ∧
    ("" : String) ≠ "Alice: http://a" := by decide

/-- Claim C8 as amended: the image_attributions field equals the spec's
attribution construction restricted to the photos that carry a reference
name (semicolon-joined author name plus source URI per photo, photos with
empty attribution text skipped, bar-joined across photos). -/
theorem image_attributions_named_spec (a n : String) (p : Place) :
    dgetD (rowFor a n (some p)) "image_attributions" "" =
      spec_imageAttributions_namedPhotos p.photos := by
  rw [rowFor_img_cell, imageAttributions_eq_spec]

/-- Counterexample to claim C5 as stated: with the credential unset (a
fatal condition) the enrichment tool writes no output but finishes with
exit status 0, not a nonzero status: `main` merely returns after logging. -/
theorem fatal_exit_counterexample :
    (placesMain ""
        (some { headers := ["Business Name"],
                rows := [[("Business Name", "A")]] })
        (fun _ => ApiOutcome.requestError)).exitCode = 0 ∧
    (placesMain ""
        (some { headers := ["Business Name"],
                rows := [[("Business Name", "A")]] })
        (fun _ => ApiOutcome.requestError)).output = none := by decide

/-- Claim C5 as amended: every fatal condition (missing credential, missing
input file, missing required column) terminates the run without producing
any output; the merge tool exits with status 1, but the enrichment tool
finishes with exit status 0 on its fatal paths. -/
theorem fatal_conditions_terminate (a f1 f2 : String) (file : InputCsv)
    (input : Option InputCsv) (net : String → ApiOutcome)
    (d1 d2 : DataFrame) (df2 : Option DataFrame) (mt : MergeType)
    (hcol : BUSINESS_NAME_COLUMN ∉ file.headers)
    (hd1 : BUSINESS_NAME_COLUMN ∉ d1.cols) :
    placesMain "" input net = { exitCode := 0, output := none } ∧
    placesMain a none net = { exitCode := 0, output := none } ∧
    placesMain a (some file) net = { exitCode := 0, output := none } ∧
    mergerMain f1 none f2 df2 mt = { exitCode := 1, output := none } ∧
    mergerMain f1 (some d1) f2 (some d2) mt =
      { exitCode := 1, output := none } := by
  refine ⟨?_, ?_, ?_, ?_, ?_⟩
  · rfl
  · simp only [placesMain]
    by_cases ha : a = ""
    · rw [if_pos ha]
    · rw [if_neg ha]
  · simp only [placesMain]
    by_cases ha : a = ""
    · rw [if_pos ha]
    · rw [if_neg ha, if_neg hcol]
  · rfl
  · simp only [mergerMain, merge_files]
    rw [if_neg hd1]

/-- Witness for C5's amended statement at concrete fatal inputs. -/
theorem fatal_conditions_terminate_witness :
    placesMain "" none (fun _ => ApiOutcome.requestError) =
      { exitCode := 0, output := none } ∧
    placesMain "KEY" none (fun _ => ApiOutcome.requestError) =
      { exitCode := 0, output := none } ∧
    placesMain "KEY" (some { headers := ["id"], rows := [] })
        (fun _ => ApiOutcome.requestError) =
      { exitCode := 0, output := none } ∧
    mergerMain "a.csv" none "b.csv" none MergeType.inner =
      { exitCode := 1, output := none } ∧
    mergerMain "a.csv" (some { cols := ["id"], rows := [] })
        "b.csv" (some { cols := ["Business Name"], rows := [] })
        MergeType.inner = { exitCode := 1, output := none } :=
  fatal_conditions_terminate "KEY" "a.csv" "b.csv"
    { headers := ["id"], rows := [] } none (fun _ => ApiOutcome.requestError)
    { cols := ["id"], rows := [] } { cols := ["Business Name"], rows := [] }
    none MergeType.inner (by decide) (by decide)

theorem construct_photo_url_ne_empty (k s : String) (w : Nat)
    (hk : k ≠ "") (hs : s ≠ "") : construct_photo_url k s w ≠ "" := by
  rw [construct_photo_url, if_neg hk, if_neg hs]
  intro h
  have hl := congrArg String.length h
  rw [String.length_append, String.length_append, String.length_append,
    String.length_append, String.length_append] at hl
  have h1 : 0 < ("https://places.googleapis.com/v1/" : String).length := by
    decide
  have h0 : ("" : String).length = 0 := rfl
  rw [h0] at hl
  omega

theorem strTruthy_getD {o : Option String} (h : strTruthy o = true) :
    o.getD "" ≠ "" := by
  cases o with
  | none => simp [strTruthy] at h
  | some s => simpa [strTruthy] using h

/-- Claim C1: on a run that writes an output, the output header is the
fixed columns plus one photo column per slot up to the maximum photo count
over all processed entities (`maxPhotos` equals the fold of per-entity
counts under `max`), the header length is that maximum plus the four fixed
columns, each output row is the projection of its entity's result row onto
that header, and an entity's row reads as the empty string at every photo
column at or beyond its own photo count. -/
theorem enrichment_header_photo_columns (a : String) (net : String → ApiOutcome)
    (file : InputCsv) (ha : a ≠ "")
    (hcol : BUSINESS_NAME_COLUMN ∈ file.headers) (hne : file.rows ≠ []) :
    ∃ out, placesMain a (some file) net =
        { exitCode := 0, output := some out } ∧
      out.header = outputHeaders (maxPhotos a net (inputNames file)) ∧
      maxPhotos a net (inputNames file) =
        ((inputNames file).map (entityPhotoCount a net)).foldr max 0 ∧
      (outputHeaders (maxPhotos a net (inputNames file))).length =
        maxPhotos a net (inputNames file) + 4 ∧
      out.rows = (inputNames file).map (fun n =>
        projectRow (outputHeaders (maxPhotos a net (inputNames file)))
          (rowFor a n (get_place_details a net n).1)) ∧
      ∀ n ∈ inputNames file, ∀ j, entityPhotoCount a net n ≤ j →
        dgetD (rowFor a n (get_place_details a net n).1) (photosKey j) "" =
          "" := by
  refine ⟨_, placesMain_eq a file net ha hcol hne, rfl,
    maxPhotos_eq a net _, ?_, rfl, ?_⟩
  · unfold outputHeaders
    simp
  · intro n hn j hj
    cases hd : (get_place_details a net n).1 with
    | none =>
      exact dgetD_baseRow_photosKey n j ""
    | some p =>
      rw [rowFor_photos_cell]
      simp only [entityPhotoCount, hd] at hj
      rw [List.getD_eq_getElem?_getD,
        List.getElem?_eq_none (by rw [photoUrls_length]; exact hj)]
      rfl

/-- Witness for C1: the example run finds 2 photos for entity "A" and none
for entity "B". -/
theorem enrichment_header_photo_columns_witness :
    ∃ out, placesMain "KEY" (some exampleFile) exampleNet =
        { exitCode := 0, output := some out } ∧
      out.header = outputHeaders (maxPhotos "KEY" exampleNet
        (inputNames exampleFile)) ∧
      maxPhotos "KEY" exampleNet (inputNames exampleFile) =
        ((inputNames exampleFile).map
          (entityPhotoCount "KEY" exampleNet)).foldr max 0 ∧
      (outputHeaders (maxPhotos "KEY" exampleNet
          (inputNames exampleFile))).length =
        maxPhotos "KEY" exampleNet (inputNames exampleFile) + 4 ∧
      out.rows = (inputNames exampleFile).map (fun n =>
        projectRow (outputHeaders (maxPhotos "KEY" exampleNet
            (inputNames exampleFile)))
          (rowFor "KEY" n (get_place_details "KEY" exampleNet n).1)) ∧
      ∀ n ∈ inputNames exampleFile, ∀ j,
        entityPhotoCount "KEY" exampleNet n ≤ j →
          dgetD (rowFor "KEY" n (get_place_details "KEY" exampleNet n).1)
            (photosKey j) "" = "" :=
  enrichment_header_photo_columns "KEY" exampleNet exampleFile
    (by decide) (by decide) (by decide)

/-- Claim C4: on a run that writes an output, there is exactly one output
row per input row, each row is computed from its own entity's lookup alone,
and an entity whose request fails (network error, non-success status or
malformed body) gets the all-empty row carrying only its name — no lookup
failure aborts the run. -/
theorem lookup_failure_does_not_abort (a : String) (net : String → ApiOutcome)
    (file : InputCsv) (ha : a ≠ "")
    (hcol : BUSINESS_NAME_COLUMN ∈ file.headers) (hne : file.rows ≠ []) :
    ∃ out, placesMain a (some file) net =
        { exitCode := 0, output := some out } ∧
      out.rows.length = file.rows.length ∧
      out.rows = (inputNames file).map (fun n =>
        projectRow (outputHeaders (maxPhotos a net (inputNames file)))
          (rowFor a n (get_place_details a net n).1)) ∧
      ∀ n ∈ inputNames file,
        (net n = ApiOutcome.requestError ∨ net n = ApiOutcome.malformed) →
          projectRow (outputHeaders (maxPhotos a net (inputNames file)))
              (rowFor a n (get_place_details a net n).1) =
            n :: List.replicate (maxPhotos a net (inputNames file) + 3) "" := by
  refine ⟨_, placesMain_eq a file net ha hcol hne, ?_, rfl, ?_⟩
  · show ((inputNames file).map _).length = _
    simp [inputNames]
  · intro n hn hfail
    rw [get_place_details_failure a n net hfail]
    exact projectRow_rowFor_none _ a n

/-- Witness for C4: in the example run entity "B" suffers a request error
yet the run emits both rows. -/
theorem lookup_failure_does_not_abort_witness :
    ∃ out, placesMain "KEY" (some exampleFile) exampleNet =
        { exitCode := 0, output := some out } ∧
      out.rows.length = exampleFile.rows.length ∧
      out.rows = (inputNames exampleFile).map (fun n =>
        projectRow (outputHeaders (maxPhotos "KEY" exampleNet
            (inputNames exampleFile)))
          (rowFor "KEY" n (get_place_details "KEY" exampleNet n).1)) ∧
      ∀ n ∈ inputNames exampleFile,
        (exampleNet n = ApiOutcome.requestError ∨
            exampleNet n = ApiOutcome.malformed) →
          projectRow (outputHeaders (maxPhotos "KEY" exampleNet
              (inputNames exampleFile)))
              (rowFor "KEY" n (get_place_details "KEY" exampleNet n).1) =
            n :: List.replicate
              (maxPhotos "KEY" exampleNet (inputNames exampleFile) + 3) "" :=
  lookup_failure_does_not_abort "KEY" exampleNet exampleFile
    (by decide) (by decide) (by decide)

/-- Claim C10: a photo lacking a (truthy) reference name contributes no
photo URL, no attribution and no unit to the photo count wherever it sits
in the photo list, and a result row's photo cells are contiguous: every
cell below the entity's photo count is a non-empty URL and every cell at or
beyond it is empty. -/
theorem unnamed_photo_contributes_nothing (a n : String) (p : Place)
    (ph : Photo) (pre post : List Photo)
    (hname : strTruthy ph.name = false) (ha : a ≠ "") :
    photoUrls a (pre ++ ph :: post) = photoUrls a (pre ++ post) ∧
    imageAttributions (pre ++ ph :: post) = imageAttributions (pre ++ post) ∧
    countedPhotos (pre ++ ph :: post) = countedPhotos (pre ++ post) ∧
    (∀ j, j < countedPhotos p.photos →
      dgetD (rowFor a n (some p)) (photosKey j) "" ≠ "") ∧
    (∀ j, countedPhotos p.photos ≤ j →
      dgetD (rowFor a n (some p)) (photosKey j) "" = "") := by
  have hnp : namedPhotos (pre ++ ph :: post) = namedPhotos (pre ++ post) := by
    unfold namedPhotos
    rw [List.filter_append, List.filter_append, List.filter_cons,
      if_neg (by rw [hname]; simp)]
  refine ⟨?_, ?_, ?_, ?_, ?_⟩
  · unfold photoUrls
    rw [hnp]
  · unfold imageAttributions photoAttributions
    rw [hnp]
  · unfold countedPhotos
    rw [hnp]
  · intro j hj
    rw [rowFor_photos_cell]
    have hlen : j < (photoUrls a p.photos).length := by
      rw [photoUrls_length]; exact hj
    rw [List.getD_eq_getElem?_getD, List.getElem?_eq_getElem hlen]
    simp only [Option.getD_some]
    unfold photoUrls
    rw [List.getElem_map]
    have key : ∀ x : Photo, x ∈ namedPhotos p.photos →
        strTruthy x.name = true := by
      intro x hx
      unfold namedPhotos at hx
      exact (List.mem_filter.mp hx).2
    apply construct_photo_url_ne_empty a _ DEFAULT_MAX_WIDTH ha
    apply strTruthy_getD
    apply key
    exact List.getElem_mem _
  · intro j hj
    rw [rowFor_photos_cell, List.getD_eq_getElem?_getD,
      List.getElem?_eq_none (by rw [photoUrls_length]; exact hj)]
    rfl

/-- Witness for C10: a lone unnamed photo produces no URL, no attribution
and a zero count; the example place's photo cells are contiguous. -/
theorem unnamed_photo_contributes_nothing_witness :
    photoUrls "KEY" ([] ++ { name := none, authorAttributions := [] } :: []) =
      photoUrls "KEY" ([] ++ []) ∧
    imageAttributions
        ([] ++ { name := none, authorAttributions := [] } :: []) =
      imageAttributions ([] ++ []) ∧
    countedPhotos ([] ++ { name := none, authorAttributions := [] } :: []) =
      countedPhotos ([] ++ []) ∧
    (∀ j, j < countedPhotos examplePlace.photos →
      dgetD (rowFor "KEY" "A" (some examplePlace)) (photosKey j) "" ≠ "") ∧
    (∀ j, countedPhotos examplePlace.photos ≤ j →
      dgetD (rowFor "KEY" "A" (some examplePlace)) (photosKey j) "" = "") :=
  unnamed_photo_contributes_nothing "KEY" "A" examplePlace
    { name := none, authorAttributions := [] } [] [] (by decide) (by decide)

end Tangram
